import Mathlib

/-!
Verification development for the todo application's offline / realtime sync
code: the realtime service (socket wrapper with local listener fan-out,
reconnect fallback and cursor tracking), the offline sync queue, and the
todo-list mutation and statistics logic.  Each definition is a shallow
embedding of a function of the source; theorems settle the specification's
claims about them.
-/

namespace TodoApp

/-- The `syncStatus` field of a todo (`'synced' | 'pending' | 'conflict'`). -/
inductive SyncStatus where
  | synced
  | pending
  | conflict
deriving DecidableEq

/-- The `Todo` record of TodoList.tsx: `id`, `todo` (the title text),
`completed`, `userId`, `lastModified`, `syncStatus`. -/
structure Todo where
  id : Nat
  todo : String
  completed : Bool
  userId : Nat
  lastModified : Nat
  syncStatus : SyncStatus
deriving DecidableEq

/-- The `type` field of a `TodoUpdate` (`'create' | 'update' | 'delete' | 'toggle'`). -/
inductive ChangeKind where
  | create
  | update
  | delete
  | toggle
deriving DecidableEq

/-- The `TodoUpdate` event of realtimeService: `{type, todo, userId, timestamp}`.
`userId` is a string (the emitting client sends its token or `'anonymous'`). -/
structure TodoUpdate where
  type : ChangeKind
  todo : Todo
  userId : String
  timestamp : Nat
deriving DecidableEq

/-- Embeds the `todoUpdates` effect of TodoList.tsx (lines 82 to 94) together
with the query invalidation it triggers.  The effect looks only at the latest
received update; if its `userId` equals the local user's id rendered as a
string (`user?.id?.toString()`, `none` when no user is logged in) the effect
returns and the cached collection is untouched; otherwise the `todos` query is
invalidated, which refetches the collection from the server (modelled by the
`server` argument becoming the new cache). -/
def processTodoUpdates (updates : List TodoUpdate) (localUserId : Option String)
    (cache server : List Todo) : List Todo :=
  match updates.getLast? with
  | none => cache
  | some latest => if some latest.userId = localUserId then cache else server

/-- The `action` field of a queued sync item (`'create' | 'update' | 'delete'`;
TodoList.tsx queues toggles as `'update'`). -/
inductive SyncAction where
  | create
  | update
  | delete
deriving DecidableEq

/-- The `data` field of a queued sync item: the full todo for create/update,
`{ id }` alone for delete. -/
inductive OpPayload where
  | todoData (t : Todo)
  | idOnly (id : Nat)
deriving DecidableEq

/-- The id of the todo an operation targets. -/
def OpPayload.targetId : OpPayload → Nat
  | .todoData t => t.id
  | .idOnly i => i

/-- The object callers pass to `addToSyncQueue` (`{ action, data }`). -/
structure SyncRequest where
  action : SyncAction
  data : OpPayload
deriving DecidableEq

/-- A stored queue entry: the caller's fields plus the `id` that
`addToSyncQueue` generates (`Date.now().toString()`). -/
structure SyncEntry where
  action : SyncAction
  data : OpPayload
  entryId : String
deriving DecidableEq

/-- Embeds `addToSyncQueue` of OfflineContext.tsx:
`setSyncQueue(prev => [...prev, { ...item, id: Date.now().toString() }])`.
It always appends, overwriting the entry id with the current clock value. -/
def addToSyncQueue (item : SyncRequest) (now : Nat) (q : List SyncEntry) :
    List SyncEntry :=
  q ++ [⟨item.action, item.data, toString now⟩]

/-- Embeds `removeFromSyncQueue` of OfflineContext.tsx:
`setSyncQueue(prev => prev.filter(item => item.id !== id))`. -/
def removeFromSyncQueue (id : String) (q : List SyncEntry) : List SyncEntry :=
  q.filter (fun e => e.entryId != id)

/-- Outcome of one `fetch` dispatch: a 2xx response with a parsed body, a
response with `res.ok` false, or a rejected fetch (network error). -/
inductive Dispatch where
  | ok (t : Todo)
  | httpError (status : Nat)
  | netError
deriving DecidableEq

/-- The `NewTodo` shape of TodoList.tsx (`{todo, completed, userId}`). -/
structure NewTodo where
  todo : String
  completed : Bool
  userId : Nat
deriving DecidableEq

/-- The `createTodo.mutationFn` of TodoList.tsx (lines 134 to 165), returning
the mutation's result (a value, or the error that escapes) together with the
sync queue after the call.  Offline: the todo (with `id` and `lastModified`
set to the clock and `syncStatus` `'pending'`) is queued via `addToSyncQueue`
and returned.  Online: the primary POST is tried; on any failure the fallback
POST is tried; if the fallback also fails the error propagates and the queue
is untouched. -/
def createTodoMutation (isOffline : Bool) (now : Nat) (nt : NewTodo)
    (primary fallback : Dispatch) (q : List SyncEntry) :
    Except String Todo × List SyncEntry :=
  let todoWithMeta : Todo :=
    { id := now, todo := nt.todo, completed := nt.completed, userId := nt.userId,
      lastModified := now,
      syncStatus := if isOffline then SyncStatus.pending else SyncStatus.synced }
  if isOffline then
    (Except.ok todoWithMeta,
      addToSyncQueue ⟨SyncAction.create, OpPayload.todoData todoWithMeta⟩ now q)
  else
    match primary with
    | .ok t => (Except.ok t, q)
    | _ =>
      match fallback with
      | .ok t => (Except.ok t, q)
      | .httpError _ => (Except.error "Failed to add todo", q)
      | .netError => (Except.error "fetch failed", q)

end TodoApp

namespace TodoApp

/-- A subscribed callback of RealtimeService, identified by `id`; `throws`
records whether invoking it raises an exception. -/
structure Handler where
  id : Nat
  throws : Bool
deriving DecidableEq

/-- Embeds `Set.prototype.add` on the listener set of `on()`: a no-op when the
callback is already present, otherwise appended (JS sets iterate in insertion
order). -/
def addHandler (h : Handler) (hs : List Handler) : List Handler :=
  if h ∈ hs then hs else hs ++ [h]

/-- Registering a list of callbacks one after another with `on()`, starting
from an empty listener set. -/
def subscribeAll (subs : List Handler) : List Handler :=
  subs.foldl (fun acc h => addHandler h acc) []

/-- The private `emit` of RealtimeService:
`this.listeners.get(event)?.forEach(callback => callback(data))`.
Callbacks run in insertion order; an exception thrown by a callback
propagates out of `forEach`, aborting the iteration.  Returns the ids of the
callbacks that were invoked and whether an exception escaped. -/
def emitRun : List Handler → List Nat × Bool
  | [] => ([], false)
  | h :: t =>
    if h.throws then ([h.id], true)
    else
      let r := emitRun t
      (h.id :: r.1, r.2)

/-- The relevant state of RealtimeService for connect/disconnect/emit:
`socket` (`none` models the null reference, `some b` a socket whose
`connected` flag is `b`) and the listener map. -/
structure ServiceState where
  socket : Option Bool
  listeners : List (String × List Handler)
deriving DecidableEq

/-- Embeds `disconnect()` of RealtimeService: disconnects and nulls the socket and
clears the whole listener map. -/
def serviceDisconnect (_s : ServiceState) : ServiceState :=
  { socket := none, listeners := [] }

/-- Embeds `this.listeners.get(event)` (the empty set when absent). -/
def getListeners (s : ServiceState) (event : String) : List Handler :=
  match s.listeners.find? (fun p => p.1 == event) with
  | some p => p.2
  | none => []

/-- Embeds `on(event, callback)` of RealtimeService: creates the set on first use,
then adds the callback. -/
def onEvent (s : ServiceState) (event : String) (h : Handler) : ServiceState :=
  if s.listeners.any (fun p => p.1 == event) then
    { s with listeners :=
        s.listeners.map (fun p => if p.1 == event then (p.1, addHandler h p.2) else p) }
  else
    { s with listeners := s.listeners ++ [(event, addHandler h [])] }

/-- Local fan-out of one event in a given service state. -/
def emitLocal (s : ServiceState) (event : String) : List Nat × Bool :=
  emitRun (getListeners s event)

/-- The `maxReconnectAttempts` field of RealtimeService. -/
def maxReconnectAttempts : Nat := 5

/-- The `reconnectDelay` field of RealtimeService (milliseconds), passed to the socket
as `reconnectionDelay`. -/
def reconnectDelayMs : Nat := 1000

/-- The interval of the fallback polling timer (milliseconds). -/
def pollIntervalMs : Nat := 5000

/-- The reconnect-relevant state: the attempt counter and whether the socket
is connected. -/
structure RtState where
  reconnectAttempts : Nat
  connected : Bool
deriving DecidableEq

/-- The `connect_error` handler: increments the attempt counter and, when it
has reached `maxReconnectAttempts`, switches to fallback polling (the Bool). -/
def onConnectError (s : RtState) : RtState × Bool :=
  (⟨s.reconnectAttempts + 1, s.connected⟩,
    decide (maxReconnectAttempts ≤ s.reconnectAttempts + 1))

/-- Observable effects of one tick of the fallback polling interval. -/
structure PollEffect where
  cleared : Bool
  emittedPollingStatus : Bool
  attemptedConnect : Bool
deriving DecidableEq

/-- One tick of the interval set by `useFallbackPolling`: if the socket is
connected the interval clears itself; otherwise a `polling` connection status
is emitted and, only while `reconnectAttempts < maxReconnectAttempts * 2`,
the counter is incremented and `connect()` is attempted. -/
def fallbackPollTick (s : RtState) : RtState × PollEffect :=
  if s.connected then (s, ⟨true, false, false⟩)
  else if s.reconnectAttempts < maxReconnectAttempts * 2 then
    (⟨s.reconnectAttempts + 1, s.connected⟩, ⟨false, true, true⟩)
  else
    (s, ⟨false, true, false⟩)

/-- Cursor-tracking state of RealtimeProvider: the user ids present in the
cursor map and the pending deletion timers (fire time, user id) scheduled by
`setTimeout`. -/
structure CursorState where
  active : List String
  timers : List (Nat × String)
deriving DecidableEq

/-- The `cursor:move` handler (RealtimeProvider lines 80 to 95): the map entry
for the user is set (inserted if absent), and a deletion of that user id is
scheduled 3000 ms later.  The scheduled deletion is unconditional. -/
def cursorMove (now : Nat) (u : String) (s : CursorState) : CursorState :=
  { active := if u ∈ s.active then s.active else s.active ++ [u],
    timers := s.timers ++ [(now + 3000, u)] }

/-- Fires every timer strictly earlier than `t`: each removes its user id
from the map and leaves the timer list. -/
def expireStrictlyBefore (t : Nat) (s : CursorState) : CursorState :=
  { active := s.active.filter
      (fun u => !(s.timers.any (fun tu => decide (tu.1 < t) && tu.2 == u))),
    timers := s.timers.filter (fun tu => !(decide (tu.1 < t))) }

/-- Fires every timer due at or before `t`. -/
def expireUpTo (t : Nat) (s : CursorState) : CursorState :=
  { active := s.active.filter
      (fun u => !(s.timers.any (fun tu => decide (tu.1 ≤ t) && tu.2 == u))),
    timers := s.timers.filter (fun tu => !(decide (tu.1 ≤ t))) }

/-- Runs a chronological list of `cursor:move` events against the event loop:
before each move the timers already due fire; after the last move every timer
due by `tEnd` fires. -/
def cursorRunAux : CursorState → List (Nat × String) → Nat → CursorState
  | s, [], tEnd => expireUpTo tEnd s
  | s, mv :: rest, tEnd =>
    cursorRunAux (cursorMove mv.1 mv.2 (expireStrictlyBefore mv.1 s)) rest tEnd

/-- The cursor map contents at time `tEnd` after a chronological list of
`cursor:move` events, starting from an empty map. -/
def cursorRun (moves : List (Nat × String)) (tEnd : Nat) : CursorState :=
  cursorRunAux ⟨[], []⟩ moves tEnd

/-- The `stats` computed values of TodoList.tsx (lines 379 to 384). -/
structure TodoStats where
  total : Nat
  completed : Nat
  pending : Nat
  completionRate : Int
deriving DecidableEq

/-- Embeds `stats` of TodoList.tsx: `total` is the list length, `completed` and
`pending` count the completed and not-completed todos, and `completionRate`
is `Math.round((completed / total) * 100)` guarded by `total > 0`. -/
def stats (todos : List Todo) : TodoStats :=
  { total := todos.length,
    completed := (todos.filter (fun t => t.completed)).length,
    pending := (todos.filter (fun t => !t.completed)).length,
    completionRate :=
      if 0 < todos.length then
        round ((((todos.filter (fun t => t.completed)).length : ℚ) /
          (todos.length : ℚ)) * 100)
      else 0 }

end TodoApp

namespace TodoApp

/-- Auxiliary: the completed and the not-completed todos partition the list. -/
theorem length_filter_completed (l : List Todo) :
    (l.filter (fun t => t.completed)).length +
      (l.filter (fun t => !t.completed)).length = l.length := by
  induction l with
  | nil => simp
  | cons a t ih =>
    cases hc : a.completed <;> simp [List.filter_cons, hc] <;> omega

/-- Auxiliary: registering pairwise distinct callbacks with the set-based
`on()` keeps them all, in subscription order. -/
theorem foldl_addHandler_eq (subs : List Handler) :
    ∀ acc : List Handler, (acc ++ subs).Nodup →
      subs.foldl (fun a h => addHandler h a) acc = acc ++ subs := by
  induction subs with
  | nil => intro acc _; simp
  | cons h t ih =>
    intro acc hnd
    have hdisj := (List.nodup_append.mp hnd).2.2
    have hmem : h ∉ acc := fun hc => hdisj hc (by simp)
    have h1 : addHandler h acc = acc ++ [h] := by simp [addHandler, hmem]
    have h2 : ((acc ++ [h]) ++ t).Nodup := by simpa using hnd
    calc (h :: t).foldl (fun a x => addHandler x a) acc
        = t.foldl (fun a x => addHandler x a) (addHandler h acc) := rfl
      _ = (acc ++ [h]) ++ t := by rw [h1]; exact ih _ h2
      _ = acc ++ h :: t := by simp

/-- Auxiliary: when no callback raises, the fan-out invokes all of them in
stored order and no exception escapes. -/
theorem emitRun_of_no_throw (hs : List Handler)
    (h : ∀ x ∈ hs, x.throws = false) :
    emitRun hs = (hs.map (fun x => x.id), false) := by
  induction hs with
  | nil => rfl
  | cons a t ih =>
    have ha := h a (by simp)
    simp [emitRun, ha, ih (fun x hx => h x (by simp [hx]))]

/-- Auxiliary: the first raising callback aborts the fan-out after running. -/
theorem emitRun_first_throwing (pre : List Handler) (h : Handler)
    (post : List Handler) (hpre : ∀ g ∈ pre, g.throws = false)
    (hh : h.throws = true) :
    emitRun (pre ++ h :: post) = (pre.map (fun x => x.id) ++ [h.id], true) := by
  induction pre with
  | nil => simp [emitRun, hh]
  | cons a t ih =>
    have ha := hpre a (by simp)
    simp [emitRun, ha, ih (fun g hg => hpre g (by simp [hg]))]

/-- C1 (confirmed).  No self-echo: when the latest received remote todo event
carries the local user's own identifier, the todoUpdates effect returns
without invalidating the query, so the cached todo collection is unchanged. -/
theorem no_self_echo (updates : List TodoUpdate) (latest : TodoUpdate)
    (cache server : List Todo) (hlast : updates.getLast? = some latest) :
    processTodoUpdates updates (some latest.userId) cache server = cache := by
  simp [processTodoUpdates, hlast]

/-- Witness for C1 at a concrete self-originated event. -/
theorem no_self_echo_witness :
    ([(⟨ChangeKind.update, ⟨1, "Buy milk", true, 7, 60, SyncStatus.synced⟩,
        "me", 60⟩ : TodoUpdate)]).getLast? =
      some ⟨ChangeKind.update, ⟨1, "Buy milk", true, 7, 60, SyncStatus.synced⟩,
        "me", 60⟩ ∧
    processTodoUpdates
        [⟨ChangeKind.update, ⟨1, "Buy milk", true, 7, 60, SyncStatus.synced⟩,
          "me", 60⟩]
        (some "me")
        [⟨1, "Buy milk", false, 7, 50, SyncStatus.synced⟩]
        [⟨1, "Buy milk", true, 7, 60, SyncStatus.synced⟩] =
      [⟨1, "Buy milk", false, 7, 50, SyncStatus.synced⟩] :=
  ⟨rfl,
    no_self_echo
      [⟨ChangeKind.update, ⟨1, "Buy milk", true, 7, 60, SyncStatus.synced⟩,
        "me", 60⟩]
      ⟨ChangeKind.update, ⟨1, "Buy milk", true, 7, 60, SyncStatus.synced⟩,
        "me", 60⟩
      [⟨1, "Buy milk", false, 7, 50, SyncStatus.synced⟩]
      [⟨1, "Buy milk", true, 7, 60, SyncStatus.synced⟩] rfl⟩

/-- C2 counterexample.  A remote event from another user whose timestamp (50)
is below the stored item's lastModified (100) is not discarded: the effect
invalidates the query, the collection is refetched, and the stored item's
`completed` field changes. -/
theorem staleness_rejection_cex :
    (50 : Nat) ≤ 100 ∧
    processTodoUpdates
        [⟨ChangeKind.update, ⟨1, "Buy milk", true, 7, 50, SyncStatus.synced⟩,
          "other", 50⟩]
        (some "me")
        [⟨1, "Buy milk", false, 7, 100, SyncStatus.synced⟩]
        [⟨1, "Buy milk", true, 7, 100, SyncStatus.synced⟩] =
      [⟨1, "Buy milk", true, 7, 100, SyncStatus.synced⟩] ∧
    ([⟨1, "Buy milk", true, 7, 100, SyncStatus.synced⟩] : List Todo) ≠
      [⟨1, "Buy milk", false, 7, 100, SyncStatus.synced⟩] := by
  refine ⟨by norm_num, by decide, by decide⟩

/-- C2 (corrected).  The effect performs no staleness comparison: any event
whose origin is not the local user invalidates the query and the cache is
replaced by the refetched server collection, whatever the timestamps are. -/
theorem remote_event_refetch (updates : List TodoUpdate) (latest : TodoUpdate)
    (localUserId : Option String) (cache server : List Todo)
    (hlast : updates.getLast? = some latest)
    (hother : some latest.userId ≠ localUserId) :
    processTodoUpdates updates localUserId cache server = server := by
  simp [processTodoUpdates, hlast, hother]

/-- Witness for C2's corrected statement at a concrete stale event. -/
theorem remote_event_refetch_witness :
    ([(⟨ChangeKind.update, ⟨1, "Buy milk", true, 7, 50, SyncStatus.synced⟩,
        "other", 50⟩ : TodoUpdate)]).getLast? =
      some ⟨ChangeKind.update, ⟨1, "Buy milk", true, 7, 50, SyncStatus.synced⟩,
        "other", 50⟩ ∧
    (some "other" : Option String) ≠ some "me" ∧
    processTodoUpdates
        [⟨ChangeKind.update, ⟨1, "Buy milk", true, 7, 50, SyncStatus.synced⟩,
          "other", 50⟩]
        (some "me")
        [⟨1, "Buy milk", false, 7, 100, SyncStatus.synced⟩]
        [⟨1, "Buy milk", true, 7, 100, SyncStatus.synced⟩] =
      [⟨1, "Buy milk", true, 7, 100, SyncStatus.synced⟩] :=
  ⟨rfl, by decide, remote_event_refetch _ _ _ _ _ rfl (by decide)⟩

/-- C3 counterexample.  Enqueueing the very same operation twice does not
leave the queue size unchanged: `addToSyncQueue` always appends, so the
second enqueue grows the queue from one entry to two. -/
theorem idempotent_replay_cex :
    (addToSyncQueue ⟨SyncAction.create, OpPayload.idOnly 1⟩ 2
        (addToSyncQueue ⟨SyncAction.create, OpPayload.idOnly 1⟩ 1 [])).length ≠
      (addToSyncQueue ⟨SyncAction.create, OpPayload.idOnly 1⟩ 1 []).length := by
  decide

/-- C3 (corrected).  `addToSyncQueue` performs no deduplication of any kind:
every enqueue, including one that repeats an earlier operation, grows the
queue by exactly one entry. -/
theorem syncQueue_append_grows (item : SyncRequest) (now : Nat)
    (q : List SyncEntry) :
    (addToSyncQueue item now q).length = q.length + 1 := by
  simp [addToSyncQueue]

/-- C4 counterexample.  After queueing an Update for target 1 and then a
Delete for target 1, the queue still holds the Update entry for target 1:
the Delete does not drop it. -/
theorem delete_dominance_cex :
    ((addToSyncQueue ⟨SyncAction.delete, OpPayload.idOnly 1⟩ 2
        (addToSyncQueue
          ⟨SyncAction.update,
            OpPayload.todoData ⟨1, "x", false, 7, 0, SyncStatus.pending⟩⟩ 1
          [])).any
      (fun e => decide (e.action = SyncAction.update) &&
        decide (e.data.targetId = 1))) = true := by
  decide

/-- C4 (corrected).  Enqueueing a Delete preserves every earlier queue entry,
in particular queued Updates/Toggles for the same target: the queue is
append-only, and entries are removed only by `removeFromSyncQueue` matching
the generated entry id. -/
theorem addToSyncQueue_preserves_earlier (e : SyncEntry) (item : SyncRequest)
    (now : Nat) (q : List SyncEntry) (hdel : item.action = SyncAction.delete)
    (he : e ∈ q) : e ∈ addToSyncQueue item now q := by
  simp only [addToSyncQueue, List.mem_append]
  exact Or.inl he

/-- Witness for C4's corrected statement: a queued Update for target 1
survives the enqueue of a Delete for target 1. -/
theorem addToSyncQueue_preserves_earlier_witness :
    (⟨SyncAction.delete, OpPayload.idOnly 1⟩ : SyncRequest).action =
      SyncAction.delete ∧
    (⟨SyncAction.update,
        OpPayload.todoData ⟨1, "x", false, 7, 0, SyncStatus.pending⟩,
        "1"⟩ : SyncEntry) ∈
      ([⟨SyncAction.update,
          OpPayload.todoData ⟨1, "x", false, 7, 0, SyncStatus.pending⟩,
          "1"⟩] : List SyncEntry) ∧
    (⟨SyncAction.update,
        OpPayload.todoData ⟨1, "x", false, 7, 0, SyncStatus.pending⟩,
        "1"⟩ : SyncEntry) ∈
      addToSyncQueue ⟨SyncAction.delete, OpPayload.idOnly 1⟩ 2
        [⟨SyncAction.update,
          OpPayload.todoData ⟨1, "x", false, 7, 0, SyncStatus.pending⟩, "1"⟩] :=
  ⟨rfl, by decide,
    addToSyncQueue_preserves_earlier
      ⟨SyncAction.update,
        OpPayload.todoData ⟨1, "x", false, 7, 0, SyncStatus.pending⟩, "1"⟩
      ⟨SyncAction.delete, OpPayload.idOnly 1⟩ 2
      [⟨SyncAction.update,
        OpPayload.todoData ⟨1, "x", false, 7, 0, SyncStatus.pending⟩, "1"⟩]
      rfl (by decide)⟩

/-- Result-shape helper for the mutation embedding: whether the mutation
ended in an error that escaped. -/
def isErrorResult : Except String Todo → Bool
  | .error _ => true
  | .ok _ => false

/-- C5 counterexample.  Online, with the primary dispatch failing on the
network and the fallback answering non-2xx, the create mutation ends in an
escaping error and the sync queue stays empty: the operation is not queued. -/
theorem submit_failure_cex :
    createTodoMutation false 5 ⟨"Buy milk", false, 1⟩ Dispatch.netError
        (Dispatch.httpError 500) [] =
      (Except.error "Failed to add todo", []) := by
  rfl

/-- C5 (corrected).  Offline, the mutation queues the pending todo and
returns it without error; online, a successful primary dispatch is returned
with the queue untouched, and when both the primary and the fallback dispatch
fail the error escapes the mutation and the operation is not queued. -/
theorem submit_durability (now : Nat) (nt : NewTodo)
    (primary fallback : Dispatch) (q : List SyncEntry) :
    (createTodoMutation true now nt primary fallback q =
      (Except.ok ⟨now, nt.todo, nt.completed, nt.userId, now, SyncStatus.pending⟩,
        addToSyncQueue
          ⟨SyncAction.create,
            OpPayload.todoData
              ⟨now, nt.todo, nt.completed, nt.userId, now, SyncStatus.pending⟩⟩
          now q)) ∧
    (∀ t, primary = Dispatch.ok t →
      createTodoMutation false now nt primary fallback q = (Except.ok t, q)) ∧
    ((∀ t, primary ≠ Dispatch.ok t) → (∀ t, fallback ≠ Dispatch.ok t) →
      isErrorResult (createTodoMutation false now nt primary fallback q).1 =
        true ∧
      (createTodoMutation false now nt primary fallback q).2 = q) := by
  refine ⟨rfl, ?_, ?_⟩
  · intro t ht; subst ht; rfl
  · intro hp hf
    cases primary with
    | ok t => exact absurd rfl (hp t)
    | httpError st =>
      cases fallback with
      | ok t => exact absurd rfl (hf t)
      | httpError st2 => exact ⟨rfl, rfl⟩
      | netError => exact ⟨rfl, rfl⟩
    | netError =>
      cases fallback with
      | ok t => exact absurd rfl (hf t)
      | httpError st2 => exact ⟨rfl, rfl⟩
      | netError => exact ⟨rfl, rfl⟩

/-- Witness for C5's corrected statement: both dispatches fail, the error
escapes, and the empty queue stays empty. -/
theorem submit_durability_witness :
    isErrorResult
        (createTodoMutation false 5 ⟨"Buy milk", false, 1⟩ Dispatch.netError
          (Dispatch.httpError 500) []).1 = true ∧
    (createTodoMutation false 5 ⟨"Buy milk", false, 1⟩ Dispatch.netError
      (Dispatch.httpError 500) []).2 = [] :=
  (submit_durability 5 ⟨"Buy milk", false, 1⟩ Dispatch.netError
      (Dispatch.httpError 500) []).2.2
    (fun t h => Dispatch.noConfusion h) (fun t h => Dispatch.noConfusion h)

/-- C6 counterexample.  With two subscribed callbacks of which the first one
raises, the fan-out lets the exception escape and the second callback is
never invoked: a failing handler is not isolated. -/
theorem handler_isolation_cex :
    (emitRun (subscribeAll [⟨0, true⟩, ⟨1, false⟩])).2 = true ∧
    (1 : Nat) ∉ (emitRun (subscribeAll [⟨0, true⟩, ⟨1, false⟩])).1 := by
  decide

/-- C6 (corrected).  Fan-out does invoke handlers in subscription order, but
an exception in a handler is not isolated: when no handler raises they all
run in order, and otherwise the handlers registered after the first raising
one do not run and the exception escapes `emit`. -/
theorem handler_fanout_order (subs : List Handler) (hnd : subs.Nodup) :
    ((∀ x ∈ subs, x.throws = false) →
      emitRun (subscribeAll subs) = (subs.map (fun x => x.id), false)) ∧
    (∀ pre h post, subs = pre ++ h :: post →
      (∀ g ∈ pre, g.throws = false) → h.throws = true →
      emitRun (subscribeAll subs) =
        (pre.map (fun x => x.id) ++ [h.id], true)) := by
  have hsub : subscribeAll subs = subs := by
    have := foldl_addHandler_eq subs [] (by simpa using hnd)
    simpa [subscribeAll] using this
  constructor
  · intro hall; rw [hsub]; exact emitRun_of_no_throw subs hall
  · intro pre h post hEq hpre hh
    rw [hsub, hEq]; exact emitRun_first_throwing pre h post hpre hh

/-- Witness for C6's corrected statement: a raising first handler runs and
aborts the fan-out before the second handler. -/
theorem handler_fanout_order_witness :
    ([⟨0, true⟩, ⟨1, false⟩] : List Handler).Nodup ∧
    emitRun (subscribeAll [⟨0, true⟩, ⟨1, false⟩]) = ([0], true) := by
  refine ⟨by decide, ?_⟩
  have h := (handler_fanout_order [⟨0, true⟩, ⟨1, false⟩] (by decide)).2
    [] ⟨0, true⟩ [⟨1, false⟩] rfl (by intro g hg; cases hg) rfl
  simpa using h

/-- C7 counterexample.  The fifth connect error switches to fallback polling,
and after five polling cycles the attempt counter reaches ten; the next
polling cycle, with the socket still not connected and the interval still
alive, does not attempt a fresh connect. -/
theorem reconnect_probe_cex :
    (onConnectError ⟨4, false⟩).2 = true ∧
    (fallbackPollTick (fallbackPollTick (fallbackPollTick (fallbackPollTick
      (fallbackPollTick ⟨5, false⟩).1).1).1).1).1 = ⟨10, false⟩ ∧
    (fallbackPollTick ⟨10, false⟩).2.attemptedConnect = false ∧
    (fallbackPollTick ⟨10, false⟩).2.cleared = false := by
  decide

/-- C7 (corrected).  The ceiling, delay and poll interval are 5, 1000 ms and
5000 ms; the connect-error handler switches to polling exactly when the
incremented counter reaches the ceiling; while disconnected each poll tick
emits a polling status, but it attempts a fresh connect only while the
cumulative counter is below twice the ceiling, and later ticks only emit the
polling status without reconnecting. -/
theorem reconnect_degradation (s : RtState) :
    maxReconnectAttempts = 5 ∧ reconnectDelayMs = 1000 ∧
    pollIntervalMs = 5000 ∧
    ((onConnectError s).2 = true ↔
      maxReconnectAttempts ≤ s.reconnectAttempts + 1) ∧
    (s.connected = false → s.reconnectAttempts < maxReconnectAttempts * 2 →
      fallbackPollTick s =
        (⟨s.reconnectAttempts + 1, false⟩, ⟨false, true, true⟩)) ∧
    (s.connected = false → maxReconnectAttempts * 2 ≤ s.reconnectAttempts →
      fallbackPollTick s = (s, ⟨false, true, false⟩)) := by
  refine ⟨rfl, rfl, rfl, ?_, ?_, ?_⟩
  · simp [onConnectError]
  · intro hc hlt; simp [fallbackPollTick, hc, hlt]
  · intro hc hge; simp [fallbackPollTick, hc, Nat.not_lt.mpr hge]

/-- Witness for C7's corrected statement at the exhausted counter. -/
theorem reconnect_degradation_witness :
    (⟨10, false⟩ : RtState).connected = false ∧
    fallbackPollTick ⟨10, false⟩ = (⟨10, false⟩, ⟨false, true, false⟩) :=
  ⟨rfl, (reconnect_degradation ⟨10, false⟩).2.2.2.2.2 rfl (by decide)⟩

/-- C8 counterexample.  A cursor updated at 0 ms and again at 1000 ms is
already gone at 3000 ms, although 3000 ms lies inside the 3000 ms window
after the most recent update (which would end at 4000 ms): the first
scheduled deletion fires unconditionally. -/
theorem cursor_expiry_cex :
    "u" ∈ (cursorRun [(0, "u"), (1000, "u")] 2999).active ∧
    (3000 : Nat) < 1000 + 3000 ∧
    "u" ∉ (cursorRun [(0, "u"), (1000, "u")] 3000).active := by
  decide

/-- C8 (corrected).  Every `cursor:move` schedules an unconditional removal
of that user id 3000 ms later.  With a single update the entry lives exactly
until 3000 ms after it; but a newer update inside the window does not extend
the lifetime: the entry is removed 3000 ms after the earlier update. -/
theorem cursor_expiry_schedule (t0 t1 t : Nat) (u : String) :
    (t0 ≤ t → t < t0 + 3000 → u ∈ (cursorRun [(t0, u)] t).active) ∧
    (t0 + 3000 ≤ t → u ∉ (cursorRun [(t0, u)] t).active) ∧
    (t0 < t1 → t1 < t0 + 3000 →
      u ∉ (cursorRun [(t0, u), (t1, u)] (t0 + 3000)).active) := by
  refine ⟨?_, ?_, ?_⟩
  · intro _ hlt
    have hnle : ¬ (t0 + 3000 ≤ t) := by omega
    simp [cursorRun, cursorRunAux, cursorMove, expireStrictlyBefore,
      expireUpTo, hnle]
  · intro hle
    simp [cursorRun, cursorRunAux, cursorMove, expireStrictlyBefore,
      expireUpTo, hle]
  · intro h01 h1w
    have hns : ¬ (t0 + 3000 < t1) := by omega
    simp [cursorRun, cursorRunAux, cursorMove, expireStrictlyBefore,
      expireUpTo, hns]

/-- Witness for C8's corrected statement: updates at 0 and 1000, removal
already at 3000. -/
theorem cursor_expiry_schedule_witness :
    (0 : Nat) < 1000 ∧ (1000 : Nat) < 0 + 3000 ∧
    "u" ∉ (cursorRun [(0, "u"), (1000, "u")] (0 + 3000)).active :=
  ⟨by decide, by decide,
    (cursor_expiry_schedule 0 1000 0 "u").2.2 (by decide) (by decide)⟩

/-- C9 (confirmed).  The statistics satisfy completed + pending = total; the
completion rate is 0 for an empty list (the division is guarded) and
otherwise equals the rounded percentage round(100 * completed / total). -/
theorem stats_invariant (todos : List Todo) :
    (stats todos).completed + (stats todos).pending = (stats todos).total ∧
    (todos = [] → (stats todos).completionRate = 0) ∧
    (todos ≠ [] → (stats todos).completionRate =
      round (100 * (((stats todos).completed : ℚ)) /
        ((stats todos).total : ℚ))) := by
  refine ⟨?_, ?_, ?_⟩
  · simpa [stats] using length_filter_completed todos
  · intro h; subst h; simp [stats]
  · intro h
    have hl : 0 < todos.length := List.length_pos.mpr h
    show (if 0 < todos.length then
        round ((((todos.filter (fun t => t.completed)).length : ℚ) /
          (todos.length : ℚ)) * 100)
      else 0) =
      round (100 * (((todos.filter (fun t => t.completed)).length : ℚ)) /
        (todos.length : ℚ))
    rw [if_pos hl]
    congr 1
    ring

/-- Witness for C9 on a one-element completed list. -/
theorem stats_invariant_witness :
    (stats [⟨1, "a", true, 7, 0, SyncStatus.synced⟩]).completed +
        (stats [⟨1, "a", true, 7, 0, SyncStatus.synced⟩]).pending =
      (stats [⟨1, "a", true, 7, 0, SyncStatus.synced⟩]).total ∧
    (stats [⟨1, "a", true, 7, 0, SyncStatus.synced⟩]).completionRate =
      round (100 *
          (((stats [⟨1, "a", true, 7, 0, SyncStatus.synced⟩]).completed : ℚ)) /
        ((stats [⟨1, "a", true, 7, 0, SyncStatus.synced⟩]).total : ℚ)) :=
  ⟨(stats_invariant [⟨1, "a", true, 7, 0, SyncStatus.synced⟩]).1,
    (stats_invariant [⟨1, "a", true, 7, 0, SyncStatus.synced⟩]).2.2
      (by simp)⟩

/-- C10 (confirmed).  After `disconnect()` the socket reference is null and
the listener map is empty, so any subsequently emitted local event is
delivered to no handler and no exception escapes: all prior subscriptions
are dropped by `disconnect`, not only the connection. -/
theorem disconnect_postcondition (s : ServiceState) :
    (serviceDisconnect s).socket = none ∧
    (serviceDisconnect s).listeners = [] ∧
    ∀ e, emitLocal (serviceDisconnect s) e = ([], false) :=
  ⟨rfl, rfl, fun _ => rfl⟩

end TodoApp
